import Mathlib

/-!
# HerDesign scanner: the asset-loading and texture-swap glue of `app.js`

A shallow embedding of `src/app.js`.  The page is a set of callbacks that
mutate a handful of module-level variables (`mannequin`, `scene`, `camera`,
`renderer`) and objects reachable from them.  Every callback is embedded as a
function on an explicit application state; the host (browser and 3D library)
is embedded as the events it can deliver.

Objects that the program mutates through shared references (materials,
textures) live in stores indexed by a reference number, so that aliasing
between `mannequin` and the scene graph is kept: the tree of nodes is never
restructured by the program, only the materials its meshes point to.
-/

namespace HerDesign

/-! ## Data model -/

/-- The JavaScript quotient `num / den` of two window dimensions, kept
symbolic: the code stores the result of the division and never inspects it. -/
structure JsDiv where
  num : Nat
  den : Nat
deriving DecidableEq, Repr

/-- A user-selected file, the entry `e.target.files[0]`. -/
structure File where
  name : String
deriving DecidableEq, Repr

/-- A texture object as returned by `new THREE.TextureLoader().load(url)`:
`src` is the reference of the object URL it decodes, `flipY` its vertical-flip
property (the library default is `true`). -/
structure Texture where
  src : Nat
  flipY : Bool
deriving DecidableEq, Repr

/-- The two material properties the program writes: `map` (a reference into
the texture store, `none` for `null`) and `needsUpdate`. -/
structure Material where
  map : Option Nat
  needsUpdate : Bool
deriving DecidableEq, Repr

/-- A scene-graph node: its `isMesh` flag, the reference of its material, and
its children. -/
inductive Node where
  | mk (isMesh : Bool) (material : Nat) (children : List Node)
deriving Repr

/-- The value `pmremGenerator.fromEquirectangular(texture).texture`, symbolic
in the HDR texture it was derived from. -/
inductive EnvMap where
  | fromEquirectangular (hdr : Nat)
deriving DecidableEq, Repr

/-- What `scene.background` can hold: a `THREE.Color` or an environment map. -/
inductive Background where
  | color (hex : Nat)
  | envMap (e : EnvMap)
deriving DecidableEq, Repr

/-- The three slots of `scene` that the program touches. -/
structure Scene where
  background : Background
  environment : Option EnvMap
  children : List Node

/-- The camera: `aspect` is the property, `projectionAspect` the aspect the
projection matrix was last computed from by `updateProjectionMatrix`. -/
structure Camera where
  fov : Nat
  aspect : JsDiv
  projectionAspect : JsDiv
deriving DecidableEq, Repr

/-- Host and library calls with an observable effect, in program order. -/
inductive Call where
  | updateProjectionMatrix
  | setSize (w h : Nat)
  | addChangeListener
  | fromEquirectangular (hdr : Nat)
  | gltfLoad (path : String)
  | disposeTexture (hdr : Nat)
  | disposePmrem
  | sceneAdd
  | consoleLog (msg : String)
  | consoleLogProgress (loaded total : Nat)
  | consoleError (msg : String)
  | consoleErrorWith (msg : String) (err : String)
  | createObjectURL (file : File)
  | textureLoad (url : Nat)
  | traverse
deriving DecidableEq, Repr

/-- The application state: the module-level variables of `app.js`, the stores
of the objects reachable from them, the listeners registered on the
`fabricUpload` input, the outstanding asynchronous loads, and the history of
calls made. -/
structure AppState where
  /-- `let mannequin;` (`none` is `undefined`). -/
  mannequin : Option Node
  scene : Scene
  camera : Camera
  /-- The size last given to `renderer.setSize`. -/
  rendererSize : Nat × Nat
  /-- The pair `window.innerWidth`, `window.innerHeight`. -/
  window : Nat × Nat
  /-- Number of `change` listeners registered on the `fabricUpload` input.
  Every registration passes a fresh closure over the same module variables,
  so the listeners are told apart by nothing but their number. -/
  changeListeners : Nat
  materials : Nat → Material
  textures : List Texture
  objectURLs : List File
  /-- The `RGBELoader` request of startup has not completed yet. -/
  envLoadPending : Bool
  /-- History variable: `scene.environment` as it was at each invocation of
  `loadMannequinModel`. -/
  modelLoadCalls : List (Option EnvMap)
  /-- Number of `GLTFLoader.load` requests that have not completed. -/
  gltfPending : Nat
  calls : List Call

/-! ## Library operations -/

namespace Node

/-- The `isMesh` property. -/
def isMesh : Node → Bool
  | mk b _ _ => b

/-- The `material` property. -/
def material : Node → Nat
  | mk _ m _ => m

/-- The `children` property. -/
def children : Node → List Node
  | mk _ _ cs => cs

mutual
/-- The library method `Object3D.traverse`: the callback is applied to the node itself and
then, in order, the children are traversed. -/
def traverse {σ : Type} (cb : Node → σ → σ) : Node → σ → σ
  | mk b m cs, s => traverseChildren cb cs (cb (mk b m cs) s)
/-- The loop over `this.children` of `Object3D.traverse`. -/
def traverseChildren {σ : Type} (cb : Node → σ → σ) : List Node → σ → σ
  | [], s => s
  | c :: cs, s => traverseChildren cb cs (traverse cb c s)
end

mutual
/-- All nodes of a subtree, the root included, at any depth. -/
def nodes : Node → List Node
  | mk b m cs => mk b m cs :: nodesOfList cs
/-- All nodes of a list of subtrees. -/
def nodesOfList : List Node → List Node
  | [] => []
  | c :: cs => nodes c ++ nodesOfList cs
end

end Node

/-- The library method `Object3D.add` on the scene, for an object that has no parent yet (a
freshly parsed model): the object is pushed at the end of `children`. -/
def Scene.add (sc : Scene) (obj : Node) : Scene :=
  { sc with children := sc.children ++ [obj] }

/-- Records a call in the history. -/
def AppState.call (st : AppState) (c : Call) : AppState :=
  { st with calls := st.calls ++ [c] }

/-- Whether a call is a `console.error`. -/
def Call.isError : Call → Bool
  | .consoleError _ => true
  | .consoleErrorWith _ _ => true
  | _ => false

/-- Whether a call is a traversal of the model. -/
def Call.isTraverse : Call → Bool
  | .traverse => true
  | _ => false

/-- Number of error reports made so far. -/
def AppState.errorCount (st : AppState) : Nat :=
  st.calls.countP Call.isError

/-- Number of model traversals made so far. -/
def AppState.traverseCount (st : AppState) : Nat :=
  st.calls.countP Call.isTraverse

/-! ## The program -/

/-- Lines 2-17 and 25-26, 28-30: the state once the top-level script has run, for a window of
size `w` by `h`.  No `change` listener is registered by the top-level script. -/
def startup (w h : Nat) : AppState :=
  { mannequin := none
    scene := { background := .color 0xffffff, environment := none, children := [] }
    camera := { fov := 75, aspect := ⟨w, h⟩, projectionAspect := ⟨w, h⟩ }
    rendererSize := (w, h)
    window := (w, h)
    changeListeners := 0
    materials := fun _ => { map := none, needsUpdate := false }
    textures := []
    objectURLs := []
    envLoadPending := true
    modelLoadCalls := []
    gltfPending := 0
    calls := [.setSize w h] }

/-- Lines 122-127, the callback given to `mannequin.traverse`, for the texture `texture`. -/
def applyTexture (texture : Nat) (child : Node) (st : AppState) : AppState :=
  if child.isMesh then
    -- child.material.map = texture;
    let m := st.materials child.material
    let m := { m with map := some texture }
    let st := { st with materials := Function.update st.materials child.material m }
    -- child.material.needsUpdate = true;
    let m := st.materials child.material
    let m := { m with needsUpdate := true }
    { st with materials := Function.update st.materials child.material m }
  else st

/-- Lines 109-130, the body of the `change` listener, run for the event whose
`e.target.files[0]` is `file`. -/
def fabricUploadHandler (file : Option File) (st : AppState) : AppState :=
  match file with
  | none => st
  | some f =>
    -- const url = URL.createObjectURL(file);
    let url := st.objectURLs.length
    let st := AppState.call { st with objectURLs := st.objectURLs ++ [f] } (.createObjectURL f)
    -- const texture = new THREE.TextureLoader().load(url);
    let texture := st.textures.length
    let st := AppState.call { st with textures := st.textures ++ [{ src := url, flipY := true }] }
      (.textureLoad url)
    -- texture.flipY = false;
    let st := { st with textures := st.textures.modify (fun t => { t with flipY := false }) texture }
    match st.mannequin with
    | none => st.call (.consoleError "Mannequin not loaded yet!")
    | some m =>
      let st := m.traverse (applyTexture texture) (st.call .traverse)
      st.call (.consoleLog "✅ Fabric texture applied!")

/-- Lines 101-132, the `resize` listener.  The page holds the file input with id
`fabricUpload`, so `document.getElementById` returns it and the registration succeeds. -/
def onResize (st : AppState) : AppState :=
  -- camera.aspect = window.innerWidth / window.innerHeight;
  let st := { st with camera := { st.camera with aspect := ⟨st.window.1, st.window.2⟩ } }
  -- camera.updateProjectionMatrix();
  let st := AppState.call
    { st with camera := { st.camera with projectionAspect := st.camera.aspect } }
    .updateProjectionMatrix
  -- renderer.setSize(window.innerWidth, window.innerHeight);
  let st := AppState.call { st with rendererSize := (st.window.1, st.window.2) }
    (.setSize st.window.1 st.window.2)
  -- fileInput.addEventListener("change", function (e) { ... });
  AppState.call { st with changeListeners := st.changeListeners + 1 } .addChangeListener

/-- Lines 53-82, `loadMannequinModel`: one `GLTFLoader.load` request is issued. -/
def loadMannequinModel (st : AppState) : AppState :=
  AppState.call
    { st with
      modelLoadCalls := st.modelLoadCalls ++ [st.scene.environment]
      gltfPending := st.gltfPending + 1 }
    (.gltfLoad "mannequin.glb")

/-- Lines 30-43, the success callback of the `RGBELoader` request. -/
def onEnvLoaded (hdr : Nat) (st : AppState) : AppState :=
  -- const envMap = pmremGenerator.fromEquirectangular(texture).texture;
  let envMap := EnvMap.fromEquirectangular hdr
  let st := st.call (.fromEquirectangular hdr)
  -- scene.environment = envMap;
  let st := { st with scene := { st.scene with environment := some envMap } }
  -- scene.background = new THREE.Color(0xffffff);
  let st := { st with scene := { st.scene with background := .color 0xffffff } }
  -- loadMannequinModel(scene);
  let st := loadMannequinModel st
  -- texture.dispose(); pmremGenerator.dispose();
  (st.call (.disposeTexture hdr)).call .disposePmrem

/-- Lines 61-69, the success callback of the model load, for the parsed `gltf.scene`. -/
def onModelLoaded (gltfScene : Node) (st : AppState) : AppState :=
  -- mannequin = gltf.scene;
  let st := { st with mannequin := some gltfScene }
  -- scene.add(mannequin);
  let st := match st.mannequin with
    | some m => AppState.call { st with scene := st.scene.add m } .sceneAdd
    | none => st
  st.call (.consoleLog "Mannequin loaded successfully!")

/-- Lines 72-75, the progress callback of the model load. -/
def onModelProgress (loaded total : Nat) (st : AppState) : AppState :=
  st.call (.consoleLogProgress loaded total)

/-- Lines 78-80, the error callback of the model load. -/
def onModelError (error : String) (st : AppState) : AppState :=
  st.call (.consoleErrorWith "An error occurred while loading the model:" error)

/-- Delivery of one `change` event of the `fabricUpload` input: every registered listener runs
once. -/
def dispatchChange (file : Option File) (st : AppState) : AppState :=
  (fabricUploadHandler file)^[st.changeListeners] st

/-! ## The host: events and reachable states -/

/-- The events the host can deliver once the top-level script has run. -/
inductive Event where
  | resize (w h : Nat)
  | envLoaded (hdr : Nat)
  | modelProgress (loaded total : Nat)
  | modelLoaded (gltfScene : Node)
  | modelFailed (error : String)
  | fileChange (file : Option File)

/-- Whether the host can deliver the event: a load completes only if it was requested and has
not completed yet (one request, one completion). -/
def enabled (st : AppState) : Event → Bool
  | .resize _ _ => true
  | .envLoaded _ => st.envLoadPending
  | .modelProgress _ _ => decide (0 < st.gltfPending)
  | .modelLoaded _ => decide (0 < st.gltfPending)
  | .modelFailed _ => decide (0 < st.gltfPending)
  | .fileChange _ => true

/-- The state after the host has delivered the event. -/
def step (st : AppState) : Event → AppState
  | .resize w h => onResize { st with window := (w, h) }
  | .envLoaded hdr => onEnvLoaded hdr { st with envLoadPending := false }
  | .modelProgress loaded total => onModelProgress loaded total st
  | .modelLoaded g => onModelLoaded g { st with gltfPending := st.gltfPending - 1 }
  | .modelFailed e => onModelError e { st with gltfPending := st.gltfPending - 1 }
  | .fileChange file => dispatchChange file st

/-- The state after a sequence of events, `none` if the host cannot deliver one of them. -/
def run (st : AppState) : List Event → Option AppState
  | [] => some st
  | ev :: evs => if enabled st ev then run (step st ev) evs else none

/-- Whether an event is a window resize. -/
def Event.isResize : Event → Bool
  | .resize _ _ => true
  | _ => false

/-- Whether an event is the completion of the environment load. -/
def Event.isEnvLoaded : Event → Bool
  | .envLoaded _ => true
  | _ => false

/-- Whether an event is a file selection. -/
def Event.isFileChange : Event → Bool
  | .fileChange _ => true
  | _ => false

/-- Whether an event is a successful completion of the model load. -/
def Event.isModelLoaded : Event → Bool
  | .modelLoaded _ => true
  | _ => false

/-- The fields of the state that no run of the `change` listener writes. -/
def SameApp (a b : AppState) : Prop :=
  a.mannequin = b.mannequin ∧ a.scene = b.scene ∧ a.camera = b.camera ∧
  a.rendererSize = b.rendererSize ∧ a.window = b.window ∧
  a.changeListeners = b.changeListeners ∧ a.envLoadPending = b.envLoadPending ∧
  a.modelLoadCalls = b.modelLoadCalls ∧ a.gltfPending = b.gltfPending

/-- A model for the examples: a group holding a mesh and a group that holds a second mesh. -/
def exampleModel : Node :=
  .mk false 0 [.mk true 1 [], .mk false 2 [.mk true 3 []]]

/-- A file for the examples. -/
def exampleFile : File := ⟨"fabric.png"⟩

/-- The ordering of the two loads, as a property of the events delivered so far and the state
reached: either the environment load is still outstanding, and then no model load has been
requested and `mannequin` is unset; or it has completed with some HDR texture, and then the
scene's environment is the map derived from that texture and was so at every invocation of
`loadMannequinModel`. -/
def EnvironmentFirst (evs : List Event) (st : AppState) : Prop :=
  (st.envLoadPending = true ∧ st.modelLoadCalls = [] ∧ st.gltfPending = 0 ∧
    st.mannequin = none ∧ ∀ e ∈ evs, Event.isEnvLoaded e = false) ∨
  (st.envLoadPending = false ∧ ∃ hdr, Event.envLoaded hdr ∈ evs ∧
    st.scene.environment = some (EnvMap.fromEquirectangular hdr) ∧
    ∀ snap ∈ st.modelLoadCalls, snap = some (EnvMap.fromEquirectangular hdr))

/-- The node `n` lies in the subtree rooted at `root`, at any depth: it is the root itself or
lies in the subtree of one of the root's children. -/
inductive InSubtree (n : Node) : Node → Prop where
  | root : InSubtree n n
  | child {b : Bool} {m : Nat} {cs : List Node} {c : Node} :
      c ∈ cs → InSubtree n c → InSubtree n (Node.mk b m cs)

/-! ## Traversal -/

namespace Node

mutual
/-- A traversal applies the callback to the nodes of the subtree, in order. -/
theorem traverse_eq_foldl {σ : Type} (cb : Node → σ → σ) :
    ∀ (n : Node) (s : σ), traverse cb n s = (nodes n).foldl (fun acc c => cb c acc) s
  | mk b m cs, s => by
    simp only [traverse, nodes, List.foldl_cons]
    exact traverseChildren_eq_foldl cb cs _
/-- The loop over the children applies the callback to the nodes of all the subtrees. -/
theorem traverseChildren_eq_foldl {σ : Type} (cb : Node → σ → σ) :
    ∀ (cs : List Node) (s : σ),
      traverseChildren cb cs s = (nodesOfList cs).foldl (fun acc c => cb c acc) s
  | [], s => by simp [traverseChildren, nodesOfList]
  | c :: cs, s => by
    simp only [traverseChildren, nodesOfList, List.foldl_append]
    rw [traverse_eq_foldl cb c s]
    exact traverseChildren_eq_foldl cb cs _
end

/-- The root of a subtree is one of its nodes. -/
theorem self_mem_nodes : ∀ n : Node, n ∈ nodes n
  | mk b m cs => by simp [nodes]

/-- The nodes of a child's subtree are nodes of the parent's subtree. -/
theorem nodes_subset_of_mem_children {c : Node} :
    ∀ {cs : List Node}, c ∈ cs → ∀ x ∈ nodes c, x ∈ nodesOfList cs
  | [], h, _, _ => by simp at h
  | d :: ds, h, x, hx => by
    simp only [nodesOfList, List.mem_append]
    rcases List.mem_cons.mp h with rfl | h
    · exact Or.inl hx
    · exact Or.inr (nodes_subset_of_mem_children h x hx)

end Node

/-- A node in a subtree is listed among the nodes of that subtree. -/
theorem InSubtree.mem_nodes {n root : Node} (h : InSubtree n root) : n ∈ root.nodes := by
  induction h with
  | root => exact Node.self_mem_nodes n
  | child hc _ ih =>
    simp only [Node.nodes, List.mem_cons]
    exact Or.inr (Node.nodes_subset_of_mem_children hc n ih)

/-- A property kept by every step of a left fold is kept by the fold. -/
theorem foldl_preserves {α σ : Type} (f : σ → α → σ) (P : σ → Prop)
    (h : ∀ s a, P s → P (f s a)) : ∀ (l : List α) (s : σ), P s → P (l.foldl f s)
  | [], _, hs => hs
  | a :: l, s, hs => foldl_preserves f P h l (f s a) (h s a hs)

/-! ## The texture callback -/

/-- The traversal callback writes nothing but the material store. -/
theorem applyTexture_frame (t : Nat) (c : Node) (st st0 : AppState)
    (h : ∃ mats, st = { st0 with materials := mats }) :
    ∃ mats, applyTexture t c st = { st0 with materials := mats } := by
  obtain ⟨mats, rfl⟩ := h
  unfold applyTexture
  split
  · exact ⟨_, rfl⟩
  · exact ⟨_, rfl⟩

/-- The traversal callback on a node that is not a mesh does nothing. -/
theorem applyTexture_not_mesh (t : Nat) (c : Node) (st : AppState) (h : c.isMesh = false) :
    applyTexture t c st = st := by
  simp [applyTexture, h]

/-- After the traversal callback has run on a mesh, the material of the mesh carries the
texture and is marked for update. -/
theorem applyTexture_mesh (t : Nat) (c : Node) (st : AppState) (h : c.isMesh = true) :
    ((applyTexture t c st).materials c.material).map = some t ∧
    ((applyTexture t c st).materials c.material).needsUpdate = true := by
  simp [applyTexture, h]

/-- A material that carries the texture and is marked for update stays so when the traversal
callback runs on any node. -/
theorem applyTexture_keeps (t : Nat) (c : Node) (r : Nat) (st : AppState)
    (h : (st.materials r).map = some t ∧ (st.materials r).needsUpdate = true) :
    ((applyTexture t c st).materials r).map = some t ∧
    ((applyTexture t c st).materials r).needsUpdate = true := by
  unfold applyTexture
  split
  · by_cases hr : r = c.material
    · subst hr; simp
    · simp [Function.update_noteq hr, h]
  · exact h

/-- The traversal callback leaves the materials of other references alone. -/
theorem applyTexture_other (t : Nat) (c : Node) (r : Nat) (st : AppState)
    (hr : r ≠ c.material) : (applyTexture t c st).materials r = st.materials r := by
  unfold applyTexture
  split
  · simp [Function.update_noteq hr]
  · rfl

/-- After the callback has run over a list of nodes, the material of every mesh of the list
carries the texture and is marked for update. -/
theorem foldl_applyTexture_mesh (t : Nat) :
    ∀ (l : List Node) (st : AppState) (n : Node), n ∈ l → n.isMesh = true →
      (((l.foldl (fun acc c => applyTexture t c acc) st).materials n.material).map = some t ∧
       ((l.foldl (fun acc c => applyTexture t c acc) st).materials n.material).needsUpdate
         = true)
  | [], _, _, hn, _ => by simp at hn
  | c :: l, st, n, hn, hm => by
    rcases List.mem_cons.mp hn with rfl | hn
    · exact foldl_preserves (fun acc c => applyTexture t c acc)
        (fun s => (s.materials n.material).map = some t ∧
          (s.materials n.material).needsUpdate = true)
        (fun s a hs => applyTexture_keeps t a n.material s hs) l _
        (applyTexture_mesh t n st hm)
    · exact foldl_applyTexture_mesh t l _ n hn hm

/-- Running the callback over a list of nodes writes nothing but the material store. -/
theorem foldl_applyTexture_frame (t : Nat) (l : List Node) (st : AppState) :
    ∃ mats, l.foldl (fun acc c => applyTexture t c acc) st = { st with materials := mats } :=
  foldl_preserves (fun acc c => applyTexture t c acc)
    (fun s => ∃ mats, s = { st with materials := mats })
    (fun s a hs => applyTexture_frame t a s st hs) l st ⟨st.materials, rfl⟩

/-- Running the callback over a list of nodes leaves alone every material that no mesh of the
list refers to. -/
theorem foldl_applyTexture_other (t : Nat) (r : Nat) :
    ∀ (l : List Node) (st : AppState), (∀ n ∈ l, n.isMesh = true → n.material ≠ r) →
      (l.foldl (fun acc c => applyTexture t c acc) st).materials r = st.materials r
  | [], _, _ => rfl
  | c :: l, st, h => by
    rw [List.foldl_cons, foldl_applyTexture_other t r l _
      (fun n hn hm => h n (List.mem_cons_of_mem _ hn) hm)]
    by_cases hc : c.isMesh = true
    · exact applyTexture_other t c r st (fun e => h c (List.mem_cons_self _ _) hc e.symm)
    · rw [applyTexture_not_mesh t c st (by simpa using hc)]

/-! ## The `change` listener -/

/-- Modifying the entry just appended to a list. -/
theorem modify_append_length {α : Type} (f : α → α) (a : α) :
    ∀ l : List α, (l ++ [a]).modify f l.length = l ++ [f a]
  | [] => rfl
  | x :: l => by
    have ih := modify_append_length f a l
    simpa [List.modify_succ_cons] using ih

/-- The listener does nothing for an event that carries no file. -/
theorem fabricUploadHandler_no_file (st : AppState) : fabricUploadHandler none st = st := rfl

/-- The listener on a file while `mannequin` is unset: an object URL and a texture are created,
then the error is reported. -/
theorem fabricUploadHandler_unset (f : File) (st : AppState) (h : st.mannequin = none) :
    fabricUploadHandler (some f) st =
      { st with
        objectURLs := st.objectURLs ++ [f]
        textures := st.textures ++ [{ src := st.objectURLs.length, flipY := false }]
        calls := st.calls ++ [.createObjectURL f, .textureLoad st.objectURLs.length,
          .consoleError "Mannequin not loaded yet!"] } := by
  simp [fabricUploadHandler, AppState.call, h, modify_append_length]

/-- The listener on a file while `mannequin` holds a model: an object URL and a texture are
created, the model is traversed once, and nothing but the material store is written besides;
the material of every mesh of the model carries the new texture and is marked for update, and
the materials that no mesh of the model refers to are left alone. -/
theorem fabricUploadHandler_set (f : File) (st : AppState) (m : Node)
    (h : st.mannequin = some m) :
    ∃ mats : Nat → Material,
      fabricUploadHandler (some f) st =
        { st with
          objectURLs := st.objectURLs ++ [f]
          textures := st.textures ++ [{ src := st.objectURLs.length, flipY := false }]
          materials := mats
          calls := st.calls ++ [.createObjectURL f, .textureLoad st.objectURLs.length,
            .traverse, .consoleLog "✅ Fabric texture applied!"] } ∧
      (∀ n ∈ m.nodes, n.isMesh = true →
        (mats n.material).map = some st.textures.length ∧
        (mats n.material).needsUpdate = true) ∧
      (∀ r, (∀ n ∈ m.nodes, n.isMesh = true → n.material ≠ r) → mats r = st.materials r) := by
  obtain ⟨mq, sc, cam, rs, win, cl, mt, tx, ou, ep, mlc, gp, cs⟩ := st
  simp only at h
  subst h
  simp only
  obtain ⟨mats, hm⟩ := foldl_applyTexture_frame tx.length (Node.nodes m)
    { mannequin := some m, scene := sc, camera := cam, rendererSize := rs, window := win,
      changeListeners := cl, materials := mt,
      textures := tx ++ [{ src := ou.length, flipY := false }],
      objectURLs := ou ++ [f], envLoadPending := ep, modelLoadCalls := mlc, gltfPending := gp,
      calls := cs ++ [.createObjectURL f, .textureLoad ou.length, .traverse] }
  have hmats := congrArg AppState.materials hm
  simp only at hmats
  refine ⟨mats, ?_, ?_, ?_⟩
  · simp [fabricUploadHandler, AppState.call, modify_append_length,
      Node.traverse_eq_foldl, hm]
  · intro n hn hmesh
    rw [← hmats]
    exact foldl_applyTexture_mesh _ _ _ n hn hmesh
  · intro r hr
    rw [← hmats]
    exact foldl_applyTexture_other _ r _ _ hr

/-- One run of the listener writes only the object-URL store, the texture store, the material
store and the call history. -/
theorem fabricUploadHandler_sameApp (file : Option File) (st : AppState) :
    SameApp (fabricUploadHandler file st) st := by
  cases file with
  | none => simp [fabricUploadHandler_no_file, SameApp]
  | some f =>
    cases h : st.mannequin with
    | none => rw [fabricUploadHandler_unset f st h]; simp [SameApp]
    | some m =>
      obtain ⟨mats, he, -, -⟩ := fabricUploadHandler_set f st m h
      rw [he]; simp [SameApp]

/-- The effect of one run of the listener on a file while `mannequin` is unset. -/
theorem fabricUploadHandler_unset_counts (f : File) (st : AppState) (h : st.mannequin = none) :
    (fabricUploadHandler (some f) st).errorCount = st.errorCount + 1 ∧
    (fabricUploadHandler (some f) st).traverseCount = st.traverseCount ∧
    (fabricUploadHandler (some f) st).materials = st.materials ∧
    (fabricUploadHandler (some f) st).textures.length = st.textures.length + 1 ∧
    (fabricUploadHandler (some f) st).objectURLs.length = st.objectURLs.length + 1 := by
  rw [fabricUploadHandler_unset f st h]
  simp [AppState.errorCount, AppState.traverseCount, List.countP_append, List.countP_cons,
    Call.isError, Call.isTraverse]

/-- The effect of one run of the listener on a file while `mannequin` holds a model. -/
theorem fabricUploadHandler_set_counts (f : File) (st : AppState) (m : Node)
    (h : st.mannequin = some m) :
    (fabricUploadHandler (some f) st).errorCount = st.errorCount ∧
    (fabricUploadHandler (some f) st).traverseCount = st.traverseCount + 1 ∧
    (fabricUploadHandler (some f) st).textures.length = st.textures.length + 1 ∧
    (fabricUploadHandler (some f) st).objectURLs.length = st.objectURLs.length + 1 := by
  obtain ⟨mats, he, -, -⟩ := fabricUploadHandler_set f st m h
  rw [he]
  simp [AppState.errorCount, AppState.traverseCount, List.countP_append, List.countP_cons,
    Call.isError, Call.isTraverse]

/-- Any number of runs of the listener writes only the object-URL store, the texture store,
the material store and the call history. -/
theorem iterate_fabricUploadHandler_sameApp (file : Option File) (st : AppState) :
    ∀ n : Nat, SameApp ((fabricUploadHandler file)^[n] st) st
  | 0 => by simp [SameApp]
  | n + 1 => by
    rw [Function.iterate_succ_apply']
    have h1 := fabricUploadHandler_sameApp file ((fabricUploadHandler file)^[n] st)
    have h2 := iterate_fabricUploadHandler_sameApp file st n
    unfold SameApp at *
    refine ⟨?_, ?_, ?_, ?_, ?_, ?_, ?_, ?_, ?_⟩
    · exact h1.1.trans h2.1
    · exact h1.2.1.trans h2.2.1
    · exact h1.2.2.1.trans h2.2.2.1
    · exact h1.2.2.2.1.trans h2.2.2.2.1
    · exact h1.2.2.2.2.1.trans h2.2.2.2.2.1
    · exact h1.2.2.2.2.2.1.trans h2.2.2.2.2.2.1
    · exact h1.2.2.2.2.2.2.1.trans h2.2.2.2.2.2.2.1
    · exact h1.2.2.2.2.2.2.2.1.trans h2.2.2.2.2.2.2.2.1
    · exact h1.2.2.2.2.2.2.2.2.trans h2.2.2.2.2.2.2.2.2

/-- The effect of `n` runs of the listener on a file while `mannequin` is unset. -/
theorem iterate_fabricUploadHandler_unset (f : File) (st : AppState) (h : st.mannequin = none) :
    ∀ n : Nat,
      ((fabricUploadHandler (some f))^[n] st).errorCount = st.errorCount + n ∧
      ((fabricUploadHandler (some f))^[n] st).traverseCount = st.traverseCount ∧
      ((fabricUploadHandler (some f))^[n] st).materials = st.materials ∧
      ((fabricUploadHandler (some f))^[n] st).textures.length = st.textures.length + n ∧
      ((fabricUploadHandler (some f))^[n] st).objectURLs.length = st.objectURLs.length + n
  | 0 => by simp
  | n + 1 => by
    rw [Function.iterate_succ_apply']
    obtain ⟨i1, i2, i3, i4, i5⟩ := iterate_fabricUploadHandler_unset f st h n
    have hm : ((fabricUploadHandler (some f))^[n] st).mannequin = none :=
      (iterate_fabricUploadHandler_sameApp (some f) st n).1.trans h
    obtain ⟨j1, j2, j3, j4, j5⟩ := fabricUploadHandler_unset_counts f _ hm
    refine ⟨?_, ?_, ?_, ?_, ?_⟩
    · rw [j1, i1]; omega
    · rw [j2, i2]
    · rw [j3, i3]
    · rw [j4, i4]; omega
    · rw [j5, i5]; omega

/-- The effect of `n` runs of the listener on a file while `mannequin` holds a model. -/
theorem iterate_fabricUploadHandler_set (f : File) (st : AppState) (m : Node)
    (h : st.mannequin = some m) :
    ∀ n : Nat,
      ((fabricUploadHandler (some f))^[n] st).errorCount = st.errorCount ∧
      ((fabricUploadHandler (some f))^[n] st).traverseCount = st.traverseCount + n ∧
      ((fabricUploadHandler (some f))^[n] st).textures.length = st.textures.length + n ∧
      ((fabricUploadHandler (some f))^[n] st).objectURLs.length = st.objectURLs.length + n
  | 0 => by simp
  | n + 1 => by
    rw [Function.iterate_succ_apply']
    obtain ⟨i1, i2, i3, i4⟩ := iterate_fabricUploadHandler_set f st m h n
    have hm : ((fabricUploadHandler (some f))^[n] st).mannequin = some m :=
      (iterate_fabricUploadHandler_sameApp (some f) st n).1.trans h
    obtain ⟨j1, j2, j3, j4⟩ := fabricUploadHandler_set_counts f _ m hm
    refine ⟨?_, ?_, ?_, ?_⟩
    · rw [j1, i1]
    · rw [j2, i2]; omega
    · rw [j3, i3]; omega
    · rw [j4, i4]; omega

/-- Delivery of a `change` event writes only the object-URL store, the texture store, the
material store and the call history. -/
theorem dispatchChange_sameApp (file : Option File) (st : AppState) :
    SameApp (dispatchChange file st) st :=
  iterate_fabricUploadHandler_sameApp file st st.changeListeners

/-! ## Reachable states -/

/-- Running a sequence of events followed by one more event. -/
theorem run_snoc (e : Event) : ∀ (evs : List Event) (s : AppState),
    run s (evs ++ [e]) =
      (run s evs).bind (fun st => if enabled st e then some (step st e) else none)
  | [], s => by simp [run]
  | a :: evs, s => by
    simp only [List.cons_append, run]
    split
    · exact run_snoc e evs _
    · rfl

/-- Invariant principle: a property of the sequence of events delivered and the state reached
that holds at the start and is kept by every event the host can deliver holds of every run. -/
theorem run_invariant (J : List Event → AppState → Prop) (s0 : AppState) (h0 : J [] s0)
    (hstep : ∀ evs st e, run s0 evs = some st → J evs st → enabled st e = true →
      J (evs ++ [e]) (step st e)) :
    ∀ (evs : List Event) (st : AppState), run s0 evs = some st → J evs st := by
  intro evs
  induction evs using List.reverseRecOn with
  | nil =>
    intro st h
    simp only [run, Option.some.injEq] at h
    subst h
    exact h0
  | append_singleton evs e ih =>
    intro st h
    rw [run_snoc] at h
    cases hr : run s0 evs with
    | none => simp [hr] at h
    | some st1 =>
      rw [hr] at h
      simp only [Option.bind_eq_bind, Option.some_bind] at h
      by_cases hen : enabled st1 e = true
      · simp only [hen, if_true, Option.some.injEq] at h
        subst h
        exact hstep evs st1 e hr (ih st1 hr) hen
      · simp [hen] at h

/-- Every event but a resize leaves the number of `change` listeners alone, and a resize adds
one. -/
theorem step_changeListeners (st : AppState) (e : Event) :
    (step st e).changeListeners = st.changeListeners + (if Event.isResize e then 1 else 0) := by
  cases e with
  | resize w h => simp [step, onResize, AppState.call, Event.isResize]
  | envLoaded hdr =>
    simp [step, onEnvLoaded, loadMannequinModel, AppState.call, Event.isResize]
  | modelProgress l t => simp [step, onModelProgress, AppState.call, Event.isResize]
  | modelLoaded g => simp [step, onModelLoaded, AppState.call, Event.isResize]
  | modelFailed err => simp [step, onModelError, AppState.call, Event.isResize]
  | fileChange file =>
    simpa [step, Event.isResize] using (dispatchChange_sameApp file st).2.2.2.2.2.1

/-- In every reachable state the number of `change` listeners is the number of resize events
delivered. -/
theorem changeListeners_eq_countP (w h : Nat) (evs : List Event) (st : AppState)
    (hrun : run (startup w h) evs = some st) :
    st.changeListeners = evs.countP Event.isResize := by
  refine run_invariant (fun evs st => st.changeListeners = evs.countP Event.isResize)
    (startup w h) rfl ?_ evs st hrun
  intro evs st e _ hJ _
  simp only at hJ ⊢
  rw [step_changeListeners, hJ, List.countP_append]
  cases h : Event.isResize e <;> simp [List.countP_cons, h]

/-- The ordering of the two loads holds in every reachable state. -/
theorem environmentFirst_of_run (w h : Nat) (evs : List Event) (st : AppState)
    (hrun : run (startup w h) evs = some st) : EnvironmentFirst evs st := by
  refine run_invariant EnvironmentFirst (startup w h) ?_ ?_ evs st hrun
  · exact Or.inl ⟨rfl, rfl, rfl, rfl, by simp⟩
  · intro evs st e _ hJ hen
    cases e with
    | resize w h =>
      rcases hJ with ⟨h1, h2, h3, h4, h5⟩ | ⟨h1, hdr, h2, h3, h4⟩
      · refine Or.inl ⟨?_, ?_, ?_, ?_, ?_⟩
        · simpa [step, onResize, AppState.call] using h1
        · simpa [step, onResize, AppState.call] using h2
        · simpa [step, onResize, AppState.call] using h3
        · simpa [step, onResize, AppState.call] using h4
        · intro e he
          rcases List.mem_append.mp he with he | he
          · exact h5 e he
          · simp only [List.mem_singleton] at he; subst he; rfl
      · refine Or.inr ⟨?_, hdr, List.mem_append_left _ h2, ?_, ?_⟩
        · simpa [step, onResize, AppState.call] using h1
        · simpa [step, onResize, AppState.call] using h3
        · simpa [step, onResize, AppState.call] using h4
    | envLoaded hdr =>
      rcases hJ with ⟨h1, h2, h3, h4, h5⟩ | ⟨h1, hdr1, h2, h3, h4⟩
      · refine Or.inr ⟨?_, hdr, by simp, ?_, ?_⟩
        · simp [step, onEnvLoaded, loadMannequinModel, AppState.call]
        · simp [step, onEnvLoaded, loadMannequinModel, AppState.call]
        · simp [step, onEnvLoaded, loadMannequinModel, AppState.call, h2]
      · simp [enabled, h1] at hen
    | modelProgress l t =>
      rcases hJ with ⟨h1, h2, h3, h4, h5⟩ | ⟨h1, hdr, h2, h3, h4⟩
      · simp [enabled, h3] at hen
      · refine Or.inr ⟨?_, hdr, List.mem_append_left _ h2, ?_, ?_⟩
        · simpa [step, onModelProgress, AppState.call] using h1
        · simpa [step, onModelProgress, AppState.call] using h3
        · simpa [step, onModelProgress, AppState.call] using h4
    | modelLoaded g =>
      rcases hJ with ⟨h1, h2, h3, h4, h5⟩ | ⟨h1, hdr, h2, h3, h4⟩
      · simp [enabled, h3] at hen
      · refine Or.inr ⟨?_, hdr, List.mem_append_left _ h2, ?_, ?_⟩
        · simpa [step, onModelLoaded, AppState.call] using h1
        · simpa [step, onModelLoaded, AppState.call, Scene.add] using h3
        · simpa [step, onModelLoaded, AppState.call] using h4
    | modelFailed err =>
      rcases hJ with ⟨h1, h2, h3, h4, h5⟩ | ⟨h1, hdr, h2, h3, h4⟩
      · simp [enabled, h3] at hen
      · refine Or.inr ⟨?_, hdr, List.mem_append_left _ h2, ?_, ?_⟩
        · simpa [step, onModelError, AppState.call] using h1
        · simpa [step, onModelError, AppState.call] using h3
        · simpa [step, onModelError, AppState.call] using h4
    | fileChange file =>
      obtain ⟨s1, s2, -, -, -, -, s7, s8, s9⟩ := dispatchChange_sameApp file st
      rcases hJ with ⟨h1, h2, h3, h4, h5⟩ | ⟨h1, hdr, h2, h3, h4⟩
      · refine Or.inl ⟨?_, ?_, ?_, ?_, ?_⟩
        · simpa [step, s7] using h1
        · simpa [step, s8] using h2
        · simpa [step, s9] using h3
        · simpa [step, s1] using h4
        · intro e he
          rcases List.mem_append.mp he with he | he
          · exact h5 e he
          · simp only [List.mem_singleton] at he; subst he; rfl
      · refine Or.inr ⟨?_, hdr, List.mem_append_left _ h2, ?_, ?_⟩
        · simpa [step, s7] using h1
        · simpa [step, s2] using h3
        · simpa [step, s8] using h4

/-! ## The claims -/

/-- C1 (evaluation of the code where the claim fails): with `mannequin` unset, the number of
error reports of one file selection is the number of resize events handled before it, not one.
At startup, before any resize, a file selection reports no error at all; after two resizes it
reports two.  In both cases `mannequin`, the scene and the material store are untouched. -/
theorem unset_selection_reports_per_resize :
    (startup 1024 768).mannequin = none ∧
    (step (startup 1024 768) (.fileChange (some ⟨"fabric.png"⟩))).errorCount
      = (startup 1024 768).errorCount ∧
    step (startup 1024 768) (.fileChange (some ⟨"fabric.png"⟩)) = startup 1024 768 ∧
    run (startup 1024 768) [.resize 800 600, .resize 640 480]
      = some (step (step (startup 1024 768) (.resize 800 600)) (.resize 640 480)) ∧
    (step (step (startup 1024 768) (.resize 800 600)) (.resize 640 480)).mannequin = none ∧
    (step (step (step (startup 1024 768) (.resize 800 600)) (.resize 640 480))
        (.fileChange (some ⟨"fabric.png"⟩))).errorCount
      = (step (step (startup 1024 768) (.resize 800 600)) (.resize 640 480)).errorCount + 2 ∧
    (step (step (step (startup 1024 768) (.resize 800 600)) (.resize 640 480))
        (.fileChange (some ⟨"fabric.png"⟩))).materials
      = (step (step (startup 1024 768) (.resize 800 600)) (.resize 640 480)).materials := by
  refine ⟨rfl, rfl, rfl, rfl, rfl, ?_, ?_⟩
  · exact (iterate_fabricUploadHandler_unset ⟨"fabric.png"⟩ _ rfl 2).1
  · exact (iterate_fabricUploadHandler_unset ⟨"fabric.png"⟩ _ rfl 2).2.2.1

/-- C2: while `mannequin` holds a model, one run of the `change` listener on a file creates one
new texture (a new entry of the texture store, with `flipY = false`), and every mesh node of the
model, at any depth, ends with a material whose `map` is that one texture and whose
`needsUpdate` is `true`. -/
theorem texture_swap_retextures_every_mesh (f : File) (st : AppState) (root n : Node)
    (h : st.mannequin = some root) (hn : InSubtree n root) (hmesh : n.isMesh = true) :
    (fabricUploadHandler (some f) st).textures
      = st.textures ++ [{ src := st.objectURLs.length, flipY := false }] ∧
    (fabricUploadHandler (some f) st).textures[st.textures.length]?
      = some { src := st.objectURLs.length, flipY := false } ∧
    ((fabricUploadHandler (some f) st).materials n.material).map = some st.textures.length ∧
    ((fabricUploadHandler (some f) st).materials n.material).needsUpdate = true := by
  obtain ⟨mats, he, hmeshes, -⟩ := fabricUploadHandler_set f st root h
  have hgood := hmeshes n hn.mem_nodes hmesh
  rw [he]
  refine ⟨rfl, ?_, hgood.1, hgood.2⟩
  simp

/-- C2, at the example model loaded after one resize: the mesh two levels down is
re-textured with the texture just created. -/
theorem texture_swap_retextures_every_mesh_witness :
    (step (step (step (startup 800 600) (.resize 800 600)) (.envLoaded 0))
      (.modelLoaded exampleModel)).mannequin = some exampleModel ∧
    InSubtree (.mk true 3 []) exampleModel ∧
    Node.isMesh (.mk true 3 []) = true ∧
    ((fabricUploadHandler (some exampleFile)
      (step (step (step (startup 800 600) (.resize 800 600)) (.envLoaded 0))
        (.modelLoaded exampleModel))).materials 3).map = some 0 ∧
    ((fabricUploadHandler (some exampleFile)
      (step (step (step (startup 800 600) (.resize 800 600)) (.envLoaded 0))
        (.modelLoaded exampleModel))).materials 3).needsUpdate = true :=
  have hn : InSubtree (.mk true 3 []) exampleModel :=
    InSubtree.child (List.mem_cons_of_mem _ (List.mem_singleton.mpr rfl))
      (InSubtree.child (List.mem_singleton.mpr rfl) InSubtree.root)
  ⟨rfl, hn, rfl,
    (texture_swap_retextures_every_mesh exampleFile _ exampleModel (.mk true 3 [])
      rfl hn rfl).2.2⟩

/-- C3 (evaluation of the code where the claim fails): after the environment and the model
have loaded with no resize event, the host can reach a state in which `mannequin` holds the
model, no `change` listener is registered, and a file selection changes nothing at all: no
listener runs, no texture is created and the meshes keep their materials. -/
theorem selection_without_resize_runs_no_listener :
    run (startup 1024 768) [.envLoaded 0, .modelLoaded exampleModel]
      = some (step (step (startup 1024 768) (.envLoaded 0)) (.modelLoaded exampleModel)) ∧
    (step (step (startup 1024 768) (.envLoaded 0)) (.modelLoaded exampleModel)).mannequin
      = some exampleModel ∧
    (step (step (startup 1024 768) (.envLoaded 0)) (.modelLoaded exampleModel)).changeListeners
      = 0 ∧
    step (step (step (startup 1024 768) (.envLoaded 0)) (.modelLoaded exampleModel))
        (.fileChange (some exampleFile))
      = step (step (startup 1024 768) (.envLoaded 0)) (.modelLoaded exampleModel) ∧
    ((step (step (step (startup 1024 768) (.envLoaded 0)) (.modelLoaded exampleModel))
        (.fileChange (some exampleFile))).materials 1).map = none ∧
    (step (step (step (startup 1024 768) (.envLoaded 0)) (.modelLoaded exampleModel))
        (.fileChange (some exampleFile))).textures = [] :=
  ⟨rfl, rfl, rfl, rfl, rfl, rfl⟩

/-- C4 (evaluation of the code where the claim fails): while `mannequin` is unset, one run of
the `change` listener on a file creates an object URL, issues the texture load and creates the
texture object, and only then reports the error; the material store is untouched. -/
theorem unset_guard_follows_texture_creation (f : File) (st : AppState)
    (h : st.mannequin = none) :
    (fabricUploadHandler (some f) st).calls
      = st.calls ++ [.createObjectURL f, .textureLoad st.objectURLs.length,
          .consoleError "Mannequin not loaded yet!"] ∧
    (fabricUploadHandler (some f) st).objectURLs = st.objectURLs ++ [f] ∧
    (fabricUploadHandler (some f) st).textures
      = st.textures ++ [{ src := st.objectURLs.length, flipY := false }] ∧
    (fabricUploadHandler (some f) st).materials = st.materials := by
  rw [fabricUploadHandler_unset f st h]
  exact ⟨rfl, rfl, rfl, rfl⟩

/-- C4, after one resize at startup: the listener leaves one object URL and one texture behind
when it reports that the model is not loaded. -/
theorem unset_guard_follows_texture_creation_witness :
    (step (startup 800 600) (.resize 800 600)).mannequin = none ∧
    (fabricUploadHandler (some exampleFile) (step (startup 800 600) (.resize 800 600))).objectURLs
      = [exampleFile] ∧
    (fabricUploadHandler (some exampleFile) (step (startup 800 600) (.resize 800 600))).textures
      = [{ src := 0, flipY := false }] :=
  ⟨rfl,
    (unset_guard_follows_texture_creation exampleFile
      (step (startup 800 600) (.resize 800 600)) rfl).2.1,
    (unset_guard_follows_texture_creation exampleFile
      (step (startup 800 600) (.resize 800 600)) rfl).2.2.1⟩

/-- C5 (evaluation of the code where the claim fails): a resize to `w` by `h` sets the camera
aspect to `w / h`, recomputes the projection from it and sets the render-surface size to
`(w, h)`; a second identical resize leaves camera and renderer as they are but registers one
more `change` listener, so the state after two resizes is not the state after one. -/
theorem resize_sets_viewport_and_adds_listener (st : AppState) (w h : Nat) :
    (step st (.resize w h)).camera.aspect = ⟨w, h⟩ ∧
    (step st (.resize w h)).camera.projectionAspect = ⟨w, h⟩ ∧
    (step st (.resize w h)).rendererSize = (w, h) ∧
    (step (step st (.resize w h)) (.resize w h)).camera = (step st (.resize w h)).camera ∧
    (step (step st (.resize w h)) (.resize w h)).rendererSize
      = (step st (.resize w h)).rendererSize ∧
    (step (step st (.resize w h)) (.resize w h)).changeListeners
      = (step st (.resize w h)).changeListeners + 1 ∧
    step (step st (.resize w h)) (.resize w h) ≠ step st (.resize w h) := by
  refine ⟨rfl, rfl, rfl, rfl, rfl, rfl, ?_⟩
  intro he
  have hc := congrArg AppState.changeListeners he
  simp [step, onResize, AppState.call] at hc

/-- C6: the success callback of the model load sets `mannequin` to the parsed subtree and
pushes that subtree as one new child of the scene: the children are the previous children
followed by the subtree, one more than before, and the environment and background slots are
untouched. -/
theorem model_loaded_sets_handle_and_adds_child (st : AppState) (gltfScene : Node) :
    (onModelLoaded gltfScene st).mannequin = some gltfScene ∧
    (onModelLoaded gltfScene st).scene.children = st.scene.children ++ [gltfScene] ∧
    (onModelLoaded gltfScene st).scene.children.length = st.scene.children.length + 1 ∧
    (onModelLoaded gltfScene st).scene.children.take st.scene.children.length
      = st.scene.children ∧
    (onModelLoaded gltfScene st).scene.children[st.scene.children.length]? = some gltfScene ∧
    (onModelLoaded gltfScene st).scene.environment = st.scene.environment ∧
    (onModelLoaded gltfScene st).scene.background = st.scene.background := by
  have hc : (onModelLoaded gltfScene st).scene.children = st.scene.children ++ [gltfScene] :=
    rfl
  refine ⟨rfl, hc, ?_, ?_, ?_, rfl, rfl⟩
  · rw [hc, List.length_append, List.length_singleton]
  · rw [hc, List.take_left]
  · rw [hc]; simp

/-- C7 (evaluation of the code where the claim fails): the success callback of the environment
load installs the derived map in `scene.environment`, but sets `scene.background` to the colour
`0xffffff`, which is not the derived map. -/
theorem env_loaded_background_is_colour (st : AppState) (hdr : Nat) :
    (onEnvLoaded hdr st).scene.environment = some (EnvMap.fromEquirectangular hdr) ∧
    (onEnvLoaded hdr st).scene.background = Background.color 0xffffff ∧
    (onEnvLoaded hdr st).scene.background
      ≠ Background.envMap (EnvMap.fromEquirectangular hdr) := by
  refine ⟨rfl, rfl, ?_⟩
  intro he
  simp [onEnvLoaded, loadMannequinModel, AppState.call] at he

/-- C8: in every reachable state, at each invocation of `loadMannequinModel` the scene's
environment was already the map derived from the HDR texture the environment load delivered,
and it still is; and if no environment-load completion is among the events delivered, then
`loadMannequinModel` has never been invoked, no model load is outstanding and `mannequin` is
unset. -/
theorem model_load_only_after_environment (w h : Nat) (evs : List Event) (st : AppState)
    (hrun : run (startup w h) evs = some st) :
    (∀ snap ∈ st.modelLoadCalls, ∃ hdr, Event.envLoaded hdr ∈ evs ∧
      snap = some (EnvMap.fromEquirectangular hdr) ∧ st.scene.environment = snap) ∧
    ((∀ e ∈ evs, Event.isEnvLoaded e = false) →
      st.modelLoadCalls = [] ∧ st.gltfPending = 0 ∧ st.mannequin = none) := by
  rcases environmentFirst_of_run w h evs st hrun with ⟨-, h2, h3, h4, -⟩ | ⟨-, hdr, h2, h3, h4⟩
  · refine ⟨?_, fun _ => ⟨h2, h3, h4⟩⟩
    intro snap hs
    simp [h2] at hs
  · refine ⟨?_, ?_⟩
    · intro snap hs
      exact ⟨hdr, h2, h4 snap hs, by rw [h4 snap hs, h3]⟩
    · intro hno
      have := hno _ h2
      simp [Event.isEnvLoaded] at this

/-- C8, on two runs: one in which the environment load completes and the model loads (the one
invocation of `loadMannequinModel` saw the derived map), and one in which it never completes
(no invocation, `mannequin` unset). -/
theorem model_load_only_after_environment_witness :
    run (startup 800 600) [.resize 640 480, .envLoaded 7, .modelProgress 1 2,
        .modelLoaded exampleModel]
      = some (step (step (step (step (startup 800 600) (.resize 640 480)) (.envLoaded 7))
          (.modelProgress 1 2)) (.modelLoaded exampleModel)) ∧
    (step (step (step (step (startup 800 600) (.resize 640 480)) (.envLoaded 7))
          (.modelProgress 1 2)) (.modelLoaded exampleModel)).modelLoadCalls
      = [some (EnvMap.fromEquirectangular 7)] ∧
    (∀ snap ∈ [some (EnvMap.fromEquirectangular 7)], ∃ hdr,
      Event.envLoaded hdr ∈ [Event.resize 640 480, .envLoaded 7, .modelProgress 1 2,
        .modelLoaded exampleModel] ∧
      snap = some (EnvMap.fromEquirectangular hdr) ∧
      some (EnvMap.fromEquirectangular 7) = snap) ∧
    run (startup 800 600) [.resize 640 480, .fileChange (some exampleFile)]
      = some (step (step (startup 800 600) (.resize 640 480))
          (.fileChange (some exampleFile))) ∧
    (∀ e ∈ [Event.resize 640 480, .fileChange (some exampleFile)],
      Event.isEnvLoaded e = false) ∧
    (step (step (startup 800 600) (.resize 640 480))
      (.fileChange (some exampleFile))).mannequin = none :=
  have hno : ∀ e ∈ [Event.resize 640 480, .fileChange (some exampleFile)],
      Event.isEnvLoaded e = false := by
    intro e he
    simp only [List.mem_cons, List.mem_singleton, List.not_mem_nil, or_false] at he
    rcases he with rfl | rfl <;> rfl
  ⟨rfl, rfl,
    (model_load_only_after_environment 800 600
      [.resize 640 480, .envLoaded 7, .modelProgress 1 2, .modelLoaded exampleModel] _ rfl).1,
    rfl, hno,
    ((model_load_only_after_environment 800 600
      [.resize 640 480, .fileChange (some exampleFile)] _ rfl).2 hno).2.2⟩

/-- C9: the error callback of the model load appends one `console.error` to the call history
and writes nothing else, and the progress callback appends one `console.log` and writes nothing
else: `mannequin`, the scene and the material store are as before (an unset `mannequin` stays
unset), and the error callback makes exactly one error report, the progress callback none. -/
theorem model_failure_and_progress_only_log (st : AppState) (error : String)
    (loaded total : Nat) :
    onModelError error st = { st with calls := st.calls ++
      [.consoleErrorWith "An error occurred while loading the model:" error] } ∧
    (onModelError error st).mannequin = st.mannequin ∧
    (onModelError error st).scene = st.scene ∧
    (onModelError error st).materials = st.materials ∧
    (onModelError error st).errorCount = st.errorCount + 1 ∧
    (step st (.modelFailed error)).mannequin = st.mannequin ∧
    (step st (.modelFailed error)).scene = st.scene ∧
    onModelProgress loaded total st = { st with calls := st.calls ++
      [.consoleLogProgress loaded total] } ∧
    (onModelProgress loaded total st).mannequin = st.mannequin ∧
    (onModelProgress loaded total st).scene = st.scene ∧
    (onModelProgress loaded total st).materials = st.materials ∧
    (onModelProgress loaded total st).errorCount = st.errorCount ∧
    step st (.modelProgress loaded total) = onModelProgress loaded total st := by
  refine ⟨rfl, rfl, rfl, rfl, ?_, rfl, rfl, rfl, rfl, rfl, rfl, ?_, rfl⟩
  · simp [onModelError, AppState.call, AppState.errorCount, List.countP_append,
      List.countP_cons, Call.isError]
  · simp [onModelProgress, AppState.call, AppState.errorCount, List.countP_append,
      List.countP_cons, Call.isError]

/-- C10: the number of `change` listeners is 0 at startup, every resize event adds exactly one
and no other event changes it, so in every reachable state it is the number of resize events
handled; a file selection then runs the listener body that many times: that many error reports
while `mannequin` is unset, that many textures created and that many traversals while it holds
a model. -/
theorem change_listeners_count_resizes (w h : Nat) (evs : List Event) (st : AppState)
    (f : File) (hrun : run (startup w h) evs = some st) :
    (startup w h).changeListeners = 0 ∧
    (∀ e, (step st e).changeListeners
      = st.changeListeners + (if Event.isResize e then 1 else 0)) ∧
    st.changeListeners = evs.countP Event.isResize ∧
    step st (.fileChange (some f))
      = (fabricUploadHandler (some f))^[evs.countP Event.isResize] st ∧
    (st.mannequin = none →
      (step st (.fileChange (some f))).errorCount
        = st.errorCount + evs.countP Event.isResize) ∧
    (st.mannequin ≠ none →
      (step st (.fileChange (some f))).textures.length
        = st.textures.length + evs.countP Event.isResize ∧
      (step st (.fileChange (some f))).traverseCount
        = st.traverseCount + evs.countP Event.isResize) := by
  have hc := changeListeners_eq_countP w h evs st hrun
  have hd : step st (.fileChange (some f))
      = (fabricUploadHandler (some f))^[evs.countP Event.isResize] st := by
    simp [step, dispatchChange, hc]
  refine ⟨rfl, step_changeListeners st, hc, hd, ?_, ?_⟩
  · intro hm
    rw [hd]
    exact (iterate_fabricUploadHandler_unset f st hm _).1
  · intro hm
    rw [hd]
    cases hq : st.mannequin with
    | none => exact absurd hq hm
    | some m =>
      obtain ⟨-, h2, h3, -⟩ := iterate_fabricUploadHandler_set f st m hq
        (evs.countP Event.isResize)
      exact ⟨h3, h2⟩

/-- C10, on a run with two resize events before the model is loaded: two listeners are
registered and one file selection makes two error reports. -/
theorem change_listeners_count_resizes_witness :
    run (startup 800 600) [.resize 640 480, .envLoaded 7, .resize 800 600]
      = some (step (step (step (startup 800 600) (.resize 640 480)) (.envLoaded 7))
          (.resize 800 600)) ∧
    (step (step (step (startup 800 600) (.resize 640 480)) (.envLoaded 7))
      (.resize 800 600)).changeListeners = 2 ∧
    (step (step (step (step (startup 800 600) (.resize 640 480)) (.envLoaded 7))
      (.resize 800 600)) (.fileChange (some exampleFile))).errorCount
      = (step (step (step (startup 800 600) (.resize 640 480)) (.envLoaded 7))
          (.resize 800 600)).errorCount + 2 :=
  ⟨rfl,
    (change_listeners_count_resizes 800 600
      [.resize 640 480, .envLoaded 7, .resize 800 600] _ exampleFile rfl).2.2.1,
    (change_listeners_count_resizes 800 600
      [.resize 640 480, .envLoaded 7, .resize 800 600] _ exampleFile rfl).2.2.2.2.1 rfl⟩

end HerDesign
